import Mathlib

/-!
# Verification of the bisect-core-ts message-queue resilience layer

Shallow embedding of the send/receive resilience subsystem of the
repository (src/mq/send.ts, the generic receiver, src/mq/common.ts's
`setupChannel`, and src/fs.ts), together with proofs of the specified
properties.

Modelling conventions:
* Pipes (connection+channel pairs) are identified by natural numbers
  allocated from a `nextPipeId` counter; externally visible pipe calls
  are recorded as `PipeEvent`s (`created`, `sent`, `closed`).
* Asynchronous broker outcomes (whether `pipeCreator` and `pipe.send`
  would succeed if called) are inputs to each step, mirroring the
  try/catch structure of the TypeScript.
* Exceptions are `Except` values; a caught exception never escapes its
  modelled function, exactly as the `catch` blocks of the source.
-/

namespace BisectCore

/-- `types.MAX_OUTSTANDING_MESSAGES` from src/mq/types.ts. -/
def MAX_OUTSTANDING_MESSAGES : Nat := 100

namespace MQ

/-- Externally visible operations performed on pipes by the sender. -/
inductive PipeEvent where
  /-- `pipeCreator` built a new pipe (setupChannel + assert of the target). -/
  | created (id : Nat)
  /-- `pipe.send` was invoked on pipe `id`. -/
  | sent (id : Nat)
  /-- `pipe.close` was invoked on pipe `id`. -/
  | closed (id : Nat)
deriving DecidableEq, Repr

/-- The state of a `GenericSender` (class `GenericSender` in src/mq/send.ts):
`sender` is the cached pipe (`this.sender`, `null` ↦ `none`), and
`nextPipeId` is the id supply for freshly created pipes. -/
structure GState where
  sender : Option Nat
  nextPipeId : Nat
deriving DecidableEq, Repr

/-- `GenericSender.send` (src/mq/send.ts, lines 72–96).  `createOk` is
whether `pipeCreator` would succeed if called, `deliverOk` whether the
pipe's `send` would succeed if called.  Returns the boolean result, the
new state and the pipe calls made.  On any caught error the cached pipe
is set to `none` and `false` is returned. -/
def genericSend (createOk deliverOk : Bool) (s : GState) :
    Bool × GState × List PipeEvent :=
  match s.sender with
  | none =>
      if createOk then
        if deliverOk then
          (true, ⟨some s.nextPipeId, s.nextPipeId + 1⟩,
            [.created s.nextPipeId, .sent s.nextPipeId])
        else
          (false, ⟨none, s.nextPipeId + 1⟩,
            [.created s.nextPipeId, .sent s.nextPipeId])
      else
        (false, s, [])
  | some p =>
      if deliverOk then
        (true, s, [.sent p])
      else
        (false, ⟨none, s.nextPipeId⟩, [.sent p])

/-- `GenericSender.close` (src/mq/send.ts, lines 98–100):
`this.sender?.close()`.  Note that it does NOT clear `this.sender`. -/
def genericClose (s : GState) : GState × List PipeEvent :=
  match s.sender with
  | none => (s, [])
  | some p => (s, [.closed p])

/-- The closure state of `createGenericSender` (src/mq/send.ts,
lines 103–194): the wrapped `GenericSender`, the `outputQueue` array and
whether `retryTimerId` is non-null. -/
structure SenderState (M : Type) where
  gs : GState
  outputQueue : List M
  retryTimerOn : Bool
deriving DecidableEq, Repr

/-- The state of a freshly constructed sender. -/
def initialSender {M : Type} : SenderState M := ⟨⟨none, 0⟩, [], false⟩

/-- `isQueueFull` (src/mq/send.ts, lines 153–155):
`outputQueue.length > MAX_OUTSTANDING_MESSAGES` with the maximum taken
as a parameter `maxOut`. -/
def isQueueFull (maxOut : Nat) {M : Type} (q : List M) : Bool :=
  decide (q.length > maxOut)

/-- Result of one call to the exposed `send`: the synchronous result
(`Except.error` models the `throw`), the new state, and the pipe calls
made. -/
structure SendStep (M : Type) where
  result : Except String Unit
  state : SenderState M
  events : List PipeEvent
deriving Repr

/-- The exposed `send` of `createGenericSender` (src/mq/send.ts,
lines 157–182).  `isDurable` is `target.options?.durable === true`
(line 110); `createOk`/`deliverOk` are the broker outcomes for the
single `sender.send` attempt this call can make. -/
def send {M : Type} (isDurable : Bool) (maxOut : Nat)
    (createOk deliverOk : Bool) (content : M) (s : SenderState M) :
    SendStep M :=
  if 0 < s.outputQueue.length then
    if isQueueFull maxOut s.outputQueue then
      ⟨.error "Error sending message. Discarded.", s, []⟩
    else
      ⟨.ok (), { s with outputQueue := s.outputQueue ++ [content] }, []⟩
  else
    let r := genericSend createOk deliverOk s.gs
    if r.1 then
      ⟨.ok (), ⟨r.2.1, s.outputQueue, s.retryTimerOn⟩, r.2.2⟩
    else if isDurable && !isQueueFull maxOut s.outputQueue then
      ⟨.ok (), ⟨r.2.1, s.outputQueue ++ [content], true⟩, r.2.2⟩
    else
      ⟨.ok (), ⟨r.2.1, s.outputQueue, s.retryTimerOn⟩, r.2.2⟩

/-- Result of one `retrySend` tick: final generic-sender state, queue,
timer flag, pipe calls, and (as a ghost observation) the messages
delivered during the tick, in delivery order. -/
structure RetryResult (M : Type) where
  gs : GState
  queue : List M
  timerOn : Bool
  events : List PipeEvent
  delivered : List M
deriving Repr

/-- The while-loop of `retrySend` (src/mq/send.ts, lines 112–127):
`shift` the oldest message, attempt delivery; on failure `unshift` it
back and return; when the queue drains, `stopRetryTimer`.  `oracle i`
gives the `(createOk, deliverOk)` outcome of the `i`-th attempt of this
tick. -/
def retryLoop {M : Type} (oracle : Nat → Bool × Bool) (i : Nat)
    (gs : GState) (q : List M) (timerOn : Bool) : RetryResult M :=
  match q with
  | [] => ⟨gs, [], false, [], []⟩
  | c :: rest =>
      let o := oracle i
      let r := genericSend o.1 o.2 gs
      if r.1 then
        let res := retryLoop oracle (i + 1) r.2.1 rest timerOn
        ⟨res.gs, res.queue, res.timerOn, r.2.2 ++ res.events,
          c :: res.delivered⟩
      else
        ⟨r.2.1, c :: rest, timerOn, r.2.2, []⟩

/-- One `retrySend` tick on a full sender state. -/
def retrySend {M : Type} (oracle : Nat → Bool × Bool) (s : SenderState M) :
    RetryResult M :=
  retryLoop oracle 0 s.gs s.outputQueue s.retryTimerOn

/-- The exposed `close` of `createGenericSender` (src/mq/send.ts,
lines 184–193): `stopRetryTimer()` then `sender.close()` (which is
`GenericSender.close`, leaving the cached pipe in place). -/
def close {M : Type} (s : SenderState M) : SenderState M × List PipeEvent :=
  let r := genericClose s.gs
  ({ s with retryTimerOn := false, gs := r.1 }, r.2)

end MQ

namespace Recv

/-- Observable actions of the generic receiver; `B` is the payload type
(a `Buffer` of raw bytes in the source). -/
inductive RAction (B : Type) where
  /-- `creator(...)` was started by the health checker. -/
  | startAttempt
  /-- `emitter.emit(onMessageKey, m.msg)`: the payload is forwarded to
  local subscribers via the event stream. -/
  | emitPayload (payload : B)
  /-- `m.ack()`: the delivered message is acknowledged to the broker. -/
  | ackToBroker
  /-- `receiver.close()` was invoked on the live pipe `id`. -/
  | closedReceiver (id : Nat)
deriving DecidableEq, Repr

/-- `onMessage` of `createGenericReceiver` (receiver module,
lines 111–114): `emitter.emit(onMessageKey, m.msg); m.ack();` — the
actions performed for one delivered broker message, in order. -/
def onMessage {B : Type} (payload : B) : List (RAction B) :=
  [.emitPayload payload, .ackToBroker]

/-- Whether an action is the broker acknowledgement. -/
def isAck {B : Type} : RAction B → Bool
  | .ackToBroker => true
  | _ => false

/-- Whether an action forwards a payload to subscribers. -/
def isEmit {B : Type} : RAction B → Bool
  | .emitPayload _ => true
  | _ => false

/-- `acksBeforeForwarding acts` holds when the first broker
acknowledgement in `acts` strictly precedes the first forwarded
payload. -/
def acksBeforeForwarding {B : Type} (acts : List (RAction B)) : Bool :=
  match acts.findIdx? isAck, acts.findIdx? isEmit with
  | some i, some j => decide (i < j)
  | _, _ => false

/-- Closure state of `createGenericReceiver`: the cached receiver
(`receiver`, `null ↦ none`, identified by allocation ids drawn from
`nextId`), the reentrancy flag `creatingNow`, whether the health-check
timer is running, and a ghost count of creation attempts currently in
flight. -/
structure RState where
  receiver : Option Nat
  creatingNow : Bool
  timerOn : Bool
  nextId : Nat
  inFlight : Nat
deriving DecidableEq, Repr

/-- The state right after `createGenericReceiver` returns:
`startHealthChecker()` has run, nothing is connected. -/
def initialReceiver : RState := ⟨none, false, true, 0, 0⟩

/-- The synchronous prefix of `healthChecker` (lines 118–133): the
reentrancy guard `receiver !== null || creatingNow`, then
`creatingNow = true` and the `creator(...)` call begins (the attempt
is then in flight).  The boolean reports whether a new attempt was
started. -/
def healthCheckerBegin (s : RState) : RState × Bool :=
  if s.receiver.isSome || s.creatingNow then (s, false)
  else ({ s with creatingNow := true, inFlight := s.inFlight + 1 }, true)

/-- Resolution of an in-flight `creator` call: on success the new
receiver is stored, on failure `receiver = null`; either way the
`finally` block clears `creatingNow`. -/
def attemptResolve (ok : Bool) (s : RState) : RState :=
  if s.inFlight = 0 then s
  else if ok then
    ⟨some s.nextId, false, s.timerOn, s.nextId + 1, s.inFlight - 1⟩
  else
    ⟨none, false, s.timerOn, s.nextId, s.inFlight - 1⟩

/-- `onChannelError` (lines 147–150): clears the live receiver. -/
def onChannelError (s : RState) : RState :=
  { s with receiver := none }

/-- `doClose` (lines 152–160): stops the health-check timer and closes
the live receiver if one exists. -/
def doClose {B : Type} (s : RState) : RState × List (RAction B) :=
  ({ s with timerOn := false },
    match s.receiver with
    | some i => [.closedReceiver i]
    | none => [])

/-- External stimuli driving one `createGenericReceiver` instance. -/
inductive REvent (B : Type) where
  | tickFire
  | resolveAttempt (ok : Bool)
  | channelError
  | deliverMessage (payload : B)
  | closeCall
deriving DecidableEq, Repr

/-- One step of the receiver: the new state and the visible actions. -/
def receiverStep {B : Type} (e : REvent B) (s : RState) :
    RState × List (RAction B) :=
  match e with
  | .tickFire =>
      let r := healthCheckerBegin s
      (r.1, if r.2 then [.startAttempt] else [])
  | .resolveAttempt ok => (attemptResolve ok s, [])
  | .channelError => (onChannelError s, [])
  | .deliverMessage p => (s, onMessage p)
  | .closeCall => doClose s

/-- Run a sequence of events from a state, collecting all actions. -/
def runReceiver {B : Type} (es : List (REvent B)) (s : RState) :
    RState × List (RAction B) :=
  match es with
  | [] => (s, [])
  | e :: rest =>
      let r := receiverStep e s
      let r2 := runReceiver rest r.1
      (r2.1, r.2 ++ r2.2)

end Recv

namespace Common

/-- Broker-side resources allocated by `setupChannel`. -/
inductive Resource where
  | connection (id : Nat)
  | channelOf (id : Nat)
deriving DecidableEq, Repr

/-- JavaScript truthiness of the `brokerUrl` argument: `!brokerUrl` is
`true` for a missing argument (`none`) and for the empty string. -/
def isFalsyUrl : Option String → Bool
  | none => true
  | some s => s == ""

/-- `setupChannel` (src/mq/common.ts, lines 70–119 of the concatenated
file): with a falsy broker URL it throws before connecting; otherwise
it connects (outcome `connectOk`), creates a channel (outcome
`createChannelOk`) and registers the four failure listeners.  The
second component lists the resources the call allocated. -/
def setupChannel (brokerUrl : Option String)
    (connectOk createChannelOk : Bool) :
    Except String Nat × List Resource :=
  if isFalsyUrl brokerUrl then
    (.error "AMQP broker URL not specified", [])
  else if !connectOk then
    (.error "connect failed", [])
  else if !createChannelOk then
    (.error "createChannel failed", [.connection 0])
  else
    (.ok 0, [.connection 0, .channelOf 0])

end Common

namespace Fs

/-- A thrown `NodeJS.ErrnoException`-like value; an absent
(`undefined`) field is `none`. -/
structure ErrnoException where
  code : Option String
  message : Option String
deriving DecidableEq, Repr

/-- `isErrnoExceptionWithCode` (src/fs.ts, lines 3–8): returns `false`
when `e.code !== undefined`, else `true`. -/
def isErrnoExceptionWithCode (e : ErrnoException) : Bool :=
  if e.code.isSome then false else true

/-- A line printed with `console.log`. -/
inductive FsLog where
  | errorLine (text : String)
deriving DecidableEq, Repr

/-- `unlinkIfExists` (src/fs.ts, lines 10–24), given the outcome of
`fs.unlink` (`none` = deleted, `some e` = threw `e`): the call's
result and its console output. -/
def unlinkIfExists (unlinkOutcome : Option ErrnoException) :
    Except ErrnoException Unit × List FsLog :=
  match unlinkOutcome with
  | none => (.ok (), [])
  | some e =>
      if isErrnoExceptionWithCode e then
        if e.code == some "ENOENT" then (.ok (), [])
        else (.error e, [.errorLine "Error deleting file"])
      else (.error e, [.errorLine "Error deleting file"])

end Fs

end BisectCore

namespace BisectCore

/-- A concrete three-send run of a durable sender with capacity 2 while
every delivery attempt fails (broker down): the messages 10, 11, 12 sent
in order from the fresh state. -/
def c1ThreeFailedSends : MQ.SendStep Nat :=
  let r1 := MQ.send true 2 false false 10 (MQ.initialSender (M := Nat))
  let r2 := MQ.send true 2 false false 11 r1.state
  MQ.send true 2 false false 12 r2.state

end BisectCore

namespace BisectCore

/-- C1 counterexample: with capacity 2 and a durable target, three
consecutive failed sends do NOT leave two messages buffered with the
third rejected: the third `send` also succeeds synchronously and the
queue holds all three messages, because `isQueueFull` uses a strict
`length > maxOut` comparison. -/
theorem c1_three_failed_sends_buffers_three :
    c1ThreeFailedSends.result = Except.ok () ∧
    c1ThreeFailedSends.state.outputQueue = [10, 11, 12] := by
  constructor <;> rfl

/-- Case split on the queue of the state produced by one `send` call:
the queue is either unchanged or extended by the sent message, and in
the latter case the queue was not full before the call. -/
lemma send_queue_cases {M : Type} (isDurable : Bool) (maxOut : Nat)
    (createOk deliverOk : Bool) (content : M) (s : MQ.SenderState M) :
    (MQ.send isDurable maxOut createOk deliverOk content s).state.outputQueue
        = s.outputQueue ∨
    ((MQ.send isDurable maxOut createOk deliverOk content s).state.outputQueue
        = s.outputQueue ++ [content] ∧
      MQ.isQueueFull maxOut s.outputQueue = false) := by
  simp only [MQ.send]
  split_ifs with h1 h2 h3 h4
  · exact Or.inl rfl
  · exact Or.inr ⟨rfl, by simpa using h2⟩
  · exact Or.inl rfl
  · refine Or.inr ⟨rfl, ?_⟩
    simp at h4
    exact h4.2
  · exact Or.inl rfl

/-- C1 amended: the outbound queue length never exceeds `maxOut + 1`
(one more than the configured maximum, 101 for the default 100), and
once the length exceeds `maxOut` a further `send` fails synchronously
with the discard error, leaving the state unchanged and performing no
pipe call. -/
theorem send_capacity_bound {M : Type} (isDurable : Bool) (maxOut : Nat)
    (createOk deliverOk : Bool) (content : M) (s : MQ.SenderState M)
    (hinv : s.outputQueue.length ≤ maxOut + 1) :
    (MQ.send isDurable maxOut createOk deliverOk content s).state.outputQueue.length ≤ maxOut + 1 ∧
    (maxOut < s.outputQueue.length →
      (MQ.send isDurable maxOut createOk deliverOk content s).result
          = Except.error "Error sending message. Discarded." ∧
      (MQ.send isDurable maxOut createOk deliverOk content s).state = s ∧
      (MQ.send isDurable maxOut createOk deliverOk content s).events = []) := by
  constructor
  · rcases send_queue_cases isDurable maxOut createOk deliverOk content s with h | ⟨h, hf⟩
    · rw [h]; exact hinv
    · rw [h]
      have : s.outputQueue.length ≤ maxOut := by
        have := hf
        simp [MQ.isQueueFull] at this
        omega
      simp
      omega
  · intro hgt
    have hpos : 0 < s.outputQueue.length := by omega
    have hfull : MQ.isQueueFull maxOut s.outputQueue = true := by
      simp [MQ.isQueueFull]
      omega
    simp [MQ.send, hpos, hfull]

/-- C1 amended, witness: a concrete queue of length 3 with capacity 2
satisfies the bound hypothesis, and the over-capacity send is rejected
without changing the state. -/
theorem send_capacity_bound_witness :
    (MQ.send true 2 false false 99
        (⟨⟨none, 0⟩, [10, 11, 12], true⟩ : MQ.SenderState Nat)).result
      = Except.error "Error sending message. Discarded." :=
  ((send_capacity_bound true 2 false false 99
      (⟨⟨none, 0⟩, [10, 11, 12], true⟩ : MQ.SenderState Nat)
      (by decide)).2 (by decide)).1

/-- A failed `GenericSender.send` always leaves the cached pipe absent:
every path of the `catch` block sets `this.sender = null`. -/
lemma genericSend_fail_sender_none (createOk deliverOk : Bool)
    (gs : MQ.GState) (h : (MQ.genericSend createOk deliverOk gs).1 = false) :
    (MQ.genericSend createOk deliverOk gs).2.1.sender = none := by
  rcases gs with ⟨sender, nid⟩
  cases sender with
  | none => cases createOk <;> cases deliverOk <;>
      simp [MQ.genericSend] at h ⊢
  | some p => cases deliverOk <;> simp [MQ.genericSend] at h ⊢

/-- One tick of the retry loop delivers a prefix of the queue and keeps
the rest, in order: `delivered = q.take k`, remaining `= q.drop k`; the
timer stops exactly when the queue drains. -/
lemma retryLoop_take_drop {M : Type} (oracle : Nat → Bool × Bool)
    (q : List M) : ∀ (i : Nat) (gs : MQ.GState) (t : Bool),
    ∃ k, k ≤ q.length ∧
      (MQ.retryLoop oracle i gs q t).delivered = q.take k ∧
      (MQ.retryLoop oracle i gs q t).queue = q.drop k ∧
      ((MQ.retryLoop oracle i gs q t).queue = [] →
          (MQ.retryLoop oracle i gs q t).timerOn = false) ∧
      ((MQ.retryLoop oracle i gs q t).queue ≠ [] →
          (MQ.retryLoop oracle i gs q t).timerOn = t) := by
  induction q with
  | nil =>
      intro i gs t
      exact ⟨0, by simp [MQ.retryLoop]⟩
  | cons c rest ih =>
      intro i gs t
      by_cases hok :
          (MQ.genericSend (oracle i).1 (oracle i).2 gs).1 = true
      · obtain ⟨k, hk, hdel, hque, ht0, ht1⟩ :=
          ih (i + 1) (MQ.genericSend (oracle i).1 (oracle i).2 gs).2.1 t
        have hstep : MQ.retryLoop oracle i gs (c :: rest) t =
            ⟨(MQ.retryLoop oracle (i + 1)
                (MQ.genericSend (oracle i).1 (oracle i).2 gs).2.1 rest t).gs,
              (MQ.retryLoop oracle (i + 1)
                (MQ.genericSend (oracle i).1 (oracle i).2 gs).2.1 rest t).queue,
              (MQ.retryLoop oracle (i + 1)
                (MQ.genericSend (oracle i).1 (oracle i).2 gs).2.1 rest t).timerOn,
              (MQ.genericSend (oracle i).1 (oracle i).2 gs).2.2 ++
                (MQ.retryLoop oracle (i + 1)
                  (MQ.genericSend (oracle i).1 (oracle i).2 gs).2.1 rest t).events,
              c :: (MQ.retryLoop oracle (i + 1)
                (MQ.genericSend (oracle i).1 (oracle i).2 gs).2.1 rest t).delivered⟩ := by
          simp [MQ.retryLoop, hok]
        refine ⟨k + 1, Nat.succ_le_succ hk, ?_, ?_, ?_, ?_⟩ <;> rw [hstep]
        · simp [hdel]
        · simp [hque]
        · simpa using ht0
        · simpa using ht1
      · refine ⟨0, Nat.zero_le _, ?_, ?_, ?_, ?_⟩ <;>
          simp [MQ.retryLoop, hok]

/-- C3: one `retrySend` tick attempts the queued messages strictly from
the front: it delivers some prefix of the outbound queue in its original
order, keeps exactly the remaining suffix (the failed message back at
the front), and stops the retry task precisely when the queue drains,
leaving the timer flag untouched otherwise. -/
theorem retrySend_fifo {M : Type} (oracle : Nat → Bool × Bool)
    (s : MQ.SenderState M) :
    (MQ.retrySend oracle s).delivered ++ (MQ.retrySend oracle s).queue
        = s.outputQueue ∧
    (∃ k, k ≤ s.outputQueue.length ∧
      (MQ.retrySend oracle s).delivered = s.outputQueue.take k ∧
      (MQ.retrySend oracle s).queue = s.outputQueue.drop k) ∧
    ((MQ.retrySend oracle s).queue = [] →
        (MQ.retrySend oracle s).timerOn = false) ∧
    ((MQ.retrySend oracle s).queue ≠ [] →
        (MQ.retrySend oracle s).timerOn = s.retryTimerOn) := by
  obtain ⟨k, hk, hdel, hque, ht0, ht1⟩ :=
    retryLoop_take_drop oracle s.outputQueue 0 s.gs s.retryTimerOn
  refine ⟨?_, ⟨k, hk, hdel, hque⟩, ht0, ht1⟩
  rw [MQ.retrySend] at *
  rw [hdel, hque, List.take_append_drop]

/-- C4: for a non-durable target a failed send never grows the outbound
queue — starting from the (invariant) empty queue, `send` leaves the
queue empty and reports no error, whatever the broker outcome. -/
theorem nondurable_send_keeps_queue_empty {M : Type} (maxOut : Nat)
    (createOk deliverOk : Bool) (content : M) (s : MQ.SenderState M)
    (hq : s.outputQueue = []) :
    (MQ.send false maxOut createOk deliverOk content s).state.outputQueue
        = [] ∧
    (MQ.send false maxOut createOk deliverOk content s).result
        = Except.ok () := by
  by_cases hok : (MQ.genericSend createOk deliverOk s.gs).1 = true <;>
    simp [MQ.send, hq, hok]

/-- C4 witness: a concrete failed non-durable send from the fresh state
leaves the queue empty and raises nothing. -/
theorem nondurable_send_keeps_queue_empty_witness :
    (MQ.send false 100 false false 7
        (MQ.initialSender (M := Nat))).state.outputQueue = [] ∧
    (MQ.send false 100 false false 7
        (MQ.initialSender (M := Nat))).result = Except.ok () :=
  nondurable_send_keeps_queue_empty 100 false false 7
    (MQ.initialSender (M := Nat)) rfl

/-- C5: `send` raises an exception exactly in the synchronous
queue-full discard case; every broker-level fault inside the attempt is
caught and converted into the cached session becoming absent, never
propagating out of `send`. -/
theorem send_raises_only_when_full {M : Type} (isDurable : Bool)
    (maxOut : Nat) (createOk deliverOk : Bool) (content : M)
    (s : MQ.SenderState M) :
    ((∃ e, (MQ.send isDurable maxOut createOk deliverOk content s).result
          = Except.error e) ↔
      (0 < s.outputQueue.length ∧
        MQ.isQueueFull maxOut s.outputQueue = true)) ∧
    (s.outputQueue = [] →
      (MQ.genericSend createOk deliverOk s.gs).1 = false →
      (MQ.send isDurable maxOut createOk deliverOk
          content s).state.gs.sender = none) := by
  constructor
  · by_cases hpos : 0 < s.outputQueue.length
    · by_cases hfull : MQ.isQueueFull maxOut s.outputQueue = true
      · simp [MQ.send, hpos, hfull]
      · simp [MQ.send, hpos, hfull]
    · by_cases hok : (MQ.genericSend createOk deliverOk s.gs).1 = true
      · simp [MQ.send, hpos, hok]
      · by_cases hd :
            (isDurable && !MQ.isQueueFull maxOut s.outputQueue) = true <;>
          simp [MQ.send, hpos, hok, hd]
  · intro hq hfail
    have hnone := genericSend_fail_sender_none createOk deliverOk s.gs hfail
    simp [MQ.send, hq, hfail]
    split <;> simpa using hnone

/-- C2 counterexample: for the concrete delivered payload `5`, the
receiver's consume callback does NOT acknowledge before forwarding —
the acknowledgement comes after the `emit` that forwards the payload
to subscribers. -/
theorem c2_ack_is_after_forward :
    Recv.acksBeforeForwarding (Recv.onMessage (B := Nat) 5) = false := by
  decide

/-- C2 amended: for every message delivered by the broker, the receiver
forwards the payload to local subscribers via the event stream first
and acknowledges to the broker immediately afterwards, within the same
synchronous callback (the ack never waits on asynchronous subscriber
processing but follows the forward rather than preceding it); the
receiver state is unchanged by a delivery. -/
theorem receiver_forwards_then_acks {B : Type} (p : B) (s : Recv.RState) :
    (Recv.receiverStep (Recv.REvent.deliverMessage p) s).2
      = [Recv.RAction.emitPayload p, Recv.RAction.ackToBroker] ∧
    (Recv.receiverStep (Recv.REvent.deliverMessage p) s).1 = s := by
  constructor <;> rfl

/-- With a cached pipe `p`, `GenericSender.send` always invokes the
pipe's `send` on `p` and never constructs a new pipe — whatever the
delivery outcome. -/
lemma genericSend_cached_events (createOk deliverOk : Bool)
    (gs : MQ.GState) (p : Nat) (hp : gs.sender = some p) :
    (MQ.genericSend createOk deliverOk gs).2.2 = [MQ.PipeEvent.sent p] := by
  rcases gs with ⟨sd, nid⟩
  cases sd with
  | none => simp at hp
  | some q =>
      obtain rfl : q = p := by simpa using hp
      cases deliverOk <;> simp [MQ.genericSend]

/-- C6: a delivery failure clears the cached pipe on the sender and a
channel failure signal clears the live receiver; the next successful
sender attempt then constructs a brand-new pipe with a fresh id,
distinct from the failed one, and on the receiver the next
health-check tick starts a creation attempt. -/
theorem failure_invalidates_session (createOk : Bool) (gs : MQ.GState)
    (p : Nat) (hp : gs.sender = some p) (hwf : p < gs.nextPipeId) :
    (MQ.genericSend createOk false gs).1 = false ∧
    (MQ.genericSend createOk false gs).2.1.sender = none ∧
    (MQ.genericSend true true (MQ.genericSend createOk false gs).2.1).2.2
      = [MQ.PipeEvent.created gs.nextPipeId,
          MQ.PipeEvent.sent gs.nextPipeId] ∧
    gs.nextPipeId ≠ p ∧
    (∀ s : Recv.RState, (Recv.onChannelError s).receiver = none) ∧
    (∀ s : Recv.RState, s.receiver = none → s.creatingNow = false →
      (Recv.receiverStep (B := Nat) Recv.REvent.tickFire s).2
          = [Recv.RAction.startAttempt]) := by
  rcases gs with ⟨sd, nid⟩
  cases sd with
  | none => simp at hp
  | some q =>
      obtain rfl : q = p := by simpa using hp
      simp only [] at hwf
      refine ⟨?_, ?_, ?_, ?_, ?_, ?_⟩
      · simp [MQ.genericSend]
      · simp [MQ.genericSend]
      · simp [MQ.genericSend]
      · simp only []
        omega
      · intro s; rfl
      · intro s h1 h2
        simp [Recv.receiverStep, Recv.healthCheckerBegin, h1, h2]

/-- C6 witness: a concrete failed delivery on a sender caching pipe 0
leaves the cached pipe absent. -/
theorem failure_invalidates_session_witness :
    (MQ.genericSend true false (⟨some 0, 1⟩ : MQ.GState)).2.1.sender
      = none :=
  (failure_invalidates_session true ⟨some 0, 1⟩ 0 rfl (by decide)).2.1

/-- Along any run, `inFlight` equals one exactly while `creatingNow`
holds — the reentrancy guard keeps creation attempts serialized. -/
lemma receiver_inflight_inv {B : Type} (es : List (Recv.REvent B)) :
    ∀ s : Recv.RState,
      s.inFlight = (if s.creatingNow then 1 else 0) →
      (Recv.runReceiver es s).1.inFlight
        = (if (Recv.runReceiver es s).1.creatingNow then 1 else 0) := by
  induction es with
  | nil => intro s h; simpa [Recv.runReceiver] using h
  | cons e rest ih =>
      intro s h
      have hstep : (Recv.receiverStep e s).1.inFlight
          = (if (Recv.receiverStep e s).1.creatingNow then 1 else 0) := by
        cases e with
        | tickFire =>
            by_cases hg : (s.receiver.isSome || s.creatingNow) = true
            · simpa [Recv.receiverStep, Recv.healthCheckerBegin, hg] using h
            · have hcn : s.creatingNow = false := by
                simp at hg; exact hg.2
              have h0 : s.inFlight = 0 := by simpa [hcn] using h
              simp [Recv.receiverStep, Recv.healthCheckerBegin, hg, h0]
        | resolveAttempt ok =>
            by_cases h0 : s.inFlight = 0
            · simpa [Recv.receiverStep, Recv.attemptResolve, h0] using h
            · have hcn : s.creatingNow = true := by
                by_contra hc
                simp [eq_false_of_ne_true hc] at h
                exact h0 h
              cases ok <;>
                simp [Recv.receiverStep, Recv.attemptResolve, h0, hcn, h,
                  hcn ▸ h]
        | channelError =>
            simpa [Recv.receiverStep, Recv.onChannelError] using h
        | deliverMessage p =>
            simpa [Recv.receiverStep] using h
        | closeCall =>
            simpa [Recv.receiverStep, Recv.doClose] using h
      have := ih (Recv.receiverStep e s).1 hstep
      simpa [Recv.runReceiver] using this

/-- C7: at most one reconnect attempt is ever in flight: a health-check
tick is a no-op (no state change, no attempt started) whenever a live
receiver exists or a creation attempt is already in progress, and along
every event sequence from the fresh receiver the number of in-flight
creation attempts never exceeds one. -/
theorem healthChecker_single_attempt {B : Type} (s : Recv.RState)
    (h : s.receiver.isSome = true ∨ s.creatingNow = true) :
    Recv.receiverStep (B := B) Recv.REvent.tickFire s = (s, []) ∧
    ∀ es : List (Recv.REvent B),
      (Recv.runReceiver es Recv.initialReceiver).1.inFlight ≤ 1 := by
  constructor
  · have hg : (s.receiver.isSome || s.creatingNow) = true := by
      rcases h with h | h <;> simp [h]
    simp [Recv.receiverStep, Recv.healthCheckerBegin, hg]
  · intro es
    have hinv := receiver_inflight_inv es Recv.initialReceiver
      (by simp [Recv.initialReceiver])
    rw [hinv]
    split <;> simp

/-- C7 witness: a tick on a connected receiver changes nothing and the
in-flight bound holds for a concrete event sequence. -/
theorem healthChecker_single_attempt_witness :
    Recv.receiverStep (B := Nat) Recv.REvent.tickFire
        (⟨some 0, false, true, 1, 0⟩ : Recv.RState)
      = (⟨some 0, false, true, 1, 0⟩, []) :=
  (healthChecker_single_attempt (B := Nat)
      ⟨some 0, false, true, 1, 0⟩ (Or.inl rfl)).1

/-- C8: `setupChannel` with an empty or missing broker URL fails by
raising the configuration error before any connection or channel is
created: no resources are allocated, whatever the broker would have
answered. -/
theorem setupChannel_falsy_url_fails (brokerUrl : Option String)
    (connectOk createChannelOk : Bool)
    (h : Common.isFalsyUrl brokerUrl = true) :
    Common.setupChannel brokerUrl connectOk createChannelOk
      = (Except.error "AMQP broker URL not specified", []) := by
  simp [Common.setupChannel, h]

/-- C8 witness: the empty URL with a reachable broker still fails fast
with no allocation. -/
theorem setupChannel_falsy_url_fails_witness :
    Common.setupChannel (some "") true true
      = (Except.error "AMQP broker URL not specified", []) :=
  setupChannel_falsy_url_fails (some "") true true (by decide)

/-- C9: the type guard `isErrnoExceptionWithCode` returns `false`
exactly when the error carries a `code`, so the branch meant to treat a
missing file as success is unreachable: whenever `fs.unlink` throws,
`unlinkIfExists` logs and re-raises — including for the ENOENT (file
does not exist) error. -/
theorem unlinkIfExists_raises_even_on_enoent :
    (∀ e : Fs.ErrnoException,
        Fs.isErrnoExceptionWithCode e = !e.code.isSome) ∧
    (∀ e : Fs.ErrnoException,
        Fs.unlinkIfExists (some e)
          = (Except.error e, [Fs.FsLog.errorLine "Error deleting file"])) ∧
    Fs.unlinkIfExists (some ⟨some "ENOENT", none⟩)
      = (Except.error ⟨some "ENOENT", none⟩,
          [Fs.FsLog.errorLine "Error deleting file"]) := by
  refine ⟨?_, ?_, ?_⟩
  · intro e
    rcases e with ⟨code, msg⟩
    cases code <;> simp [Fs.isErrnoExceptionWithCode]
  · intro e
    rcases e with ⟨code, msg⟩
    cases code <;>
      simp [Fs.unlinkIfExists, Fs.isErrnoExceptionWithCode]
  · rfl

/-- C10: the sender's `close()` stops the retry timer but does not
clear the cached pipe: the generic-sender state and the queue are
untouched, the cached pipe is closed, and a subsequent send with an
empty queue invokes `send` on that same already-closed pipe — no new
pipe is constructed. -/
theorem close_keeps_cached_pipe {M : Type} (isDurable : Bool)
    (maxOut : Nat) (createOk deliverOk : Bool) (content : M)
    (s : MQ.SenderState M) (p : Nat) (hp : s.gs.sender = some p)
    (hq : s.outputQueue = []) :
    (MQ.close s).1.gs = s.gs ∧
    (MQ.close s).1.outputQueue = s.outputQueue ∧
    (MQ.close s).1.retryTimerOn = false ∧
    (MQ.close s).2 = [MQ.PipeEvent.closed p] ∧
    (MQ.send isDurable maxOut createOk deliverOk content
        (MQ.close s).1).events = [MQ.PipeEvent.sent p] := by
  have hgc : MQ.genericClose s.gs = (s.gs, [MQ.PipeEvent.closed p]) := by
    rcases hgs : s.gs with ⟨sd, nid⟩
    rw [hgs] at hp
    simp at hp
    simp [MQ.genericClose, hp]
  have hgs1 : (MQ.close s).1.gs = s.gs := by simp [MQ.close, hgc]
  have hq1 : (MQ.close s).1.outputQueue = s.outputQueue := by
    simp [MQ.close]
  have hev := genericSend_cached_events createOk deliverOk s.gs p hp
  refine ⟨hgs1, hq1, by simp [MQ.close], by simp [MQ.close, hgc], ?_⟩
  by_cases hok : (MQ.genericSend createOk deliverOk s.gs).1 = true
  · simp [MQ.send, hq1, hq, hgs1, hok, hev]
  · by_cases hd :
        (isDurable && !MQ.isQueueFull maxOut ([] : List M)) = true <;>
      simp [MQ.send, hq1, hq, hgs1, hok, hd, hev]

/-- C10 witness: a concrete close-then-send run sends on the closed
pipe 0 and creates nothing. -/
theorem close_keeps_cached_pipe_witness :
    (MQ.send true 100 true true 3
        (MQ.close (⟨⟨some 0, 1⟩, [], true⟩ : MQ.SenderState Nat)).1).events
      = [MQ.PipeEvent.sent 0] :=
  (close_keeps_cached_pipe true 100 true true 3
      (⟨⟨some 0, 1⟩, [], true⟩ : MQ.SenderState Nat) 0 rfl rfl).2.2.2.2

end BisectCore
